import Mathlib

/-!
# Verification of the btle_exporter advertisement decoding core

A shallow embedding of `main.go` of `visago/btle_exporter`:
the advertisement envelope walker and vendor decoders
(`parseAdvertisementReportData`), the per-advertisement handler
(`advScanHandler`), and the names-CSV loader (`loadNamesCSVFile`).

Modelling conventions:
* Go `byte` values are `ℕ` (the source only ever reads values `0..255`).
* Go `float64` measurement fields are `ℚ`: every value the source stores in
  them is an exact multiple of `1/10` (a 16-bit word divided by 10, a whole
  byte, or the sentinel `-99.9`), so rational arithmetic is exact here.
* A Go runtime panic (slice bound violation, index out of range) is `none`
  in an `Option` result.
* Go maps and Prometheus gauge vectors are total functions with explicit
  pointwise update; a gauge that has never been written is `none`.
-/

/-- The absent-measurement sentinel: `const undefined = -99.9` in main.go. -/
def undefined : ℚ := -999 / 10

/-- `type SensorData struct` of main.go (the `ID`, `Type`, `Model`, `ModelID`,
`TemperatureCelcius`, `HumidityPercent`, `BatteryPercent` fields). -/
structure SensorData where
  id : ℕ
  type : ℕ
  model : String
  modelID : ℕ
  temperatureCelcius : ℚ
  humidityPercent : ℚ
  batteryPercent : ℚ
deriving Repr, DecidableEq

/-- The state of `sensorData` after lines 173-177 of main.go: model `"Unknown"`,
all three measurements set to the `undefined` sentinel, numeric fields zero. -/
def initialSensorData : SensorData :=
  { id := 0, type := 0, model := "Unknown", modelID := 0,
    temperatureCelcius := undefined, humidityPercent := undefined,
    batteryPercent := undefined }

/-- The Xiaomi branch of `parseAdvertisementReportData` (main.go lines 186-223),
entered when the element passed the `advDataLength >= 18` gate and carries the
`{0x95, 0xFE}` signature.  `advDataLength` is the declared element length,
`advData` the element payload slice (whose length equals `advDataLength`). -/
def xiaomiDecode (advDataLength : ℕ) (advData : List ℕ) (sd0 : SensorData) :
    SensorData :=
  let sd1 : SensorData :=
    { sd0 with model := "Error",
               type := advData.getD 13 0,
               id := advData.getD 6 0,
               modelID := (advData.getD 5 0) * 256 + advData.getD 4 0 }
  let dataLength := advData.getD 15 0
  let sd2 : SensorData :=
    if sd1.modelID = 0x01aa then { sd1 with model := "LYWSDCGQ" }
    else if sd1.modelID = 0x045b then { sd1 with model := "Unsupported" }
    else sd1
  if sd1.type = 0x0D then
    if dataLength = 4 ∧ advDataLength = 21 then
      { sd2 with
        temperatureCelcius :=
          (((advData.getD 17 0) * 256 + advData.getD 16 0 : ℕ) : ℚ) / 10,
        humidityPercent :=
          (((advData.getD 19 0) * 256 + advData.getD 18 0 : ℕ) : ℚ) / 10 }
    else if dataLength = 4 ∧ advDataLength = 25 then
      { sd2 with
        temperatureCelcius :=
          (((advData.getD 17 0) * 256 + advData.getD 16 0 : ℕ) : ℚ) / 10,
        humidityPercent :=
          (((advData.getD 19 0) * 256 + advData.getD 18 0 : ℕ) : ℚ) / 10,
        batteryPercent := ((advData.getD 23 0 : ℕ) : ℚ) }
    else sd2
  else if sd1.type = 0x0A ∧ dataLength = 1 ∧ advDataLength = 18 then
    { sd2 with batteryPercent := ((advData.getD 16 0 : ℕ) : ℚ) }
  else if sd1.type = 0x06 then
    if dataLength = 2 ∧ advDataLength = 19 then
      { sd2 with
        humidityPercent :=
          (((advData.getD 17 0) * 256 + advData.getD 16 0 : ℕ) : ℚ) / 10 }
    else if dataLength = 2 ∧ advDataLength = 23 then
      { sd2 with
        humidityPercent :=
          (((advData.getD 17 0) * 256 + advData.getD 16 0 : ℕ) : ℚ) / 10,
        batteryPercent := ((advData.getD 21 0 : ℕ) : ℚ) }
    else sd2
  else if sd1.type = 0x04 then
    if dataLength = 2 ∧ advDataLength = 19 then
      { sd2 with
        temperatureCelcius :=
          (((advData.getD 17 0) * 256 + advData.getD 16 0 : ℕ) : ℚ) / 10 }
    else if dataLength = 2 ∧ advDataLength = 23 then
      { sd2 with
        temperatureCelcius :=
          (((advData.getD 17 0) * 256 + advData.getD 16 0 : ℕ) : ℚ) / 10,
        batteryPercent := ((advData.getD 21 0 : ℕ) : ℚ) }
    else sd2
  else sd2

/-- The ATC branch of `parseAdvertisementReportData` (main.go lines 224-230),
entered when the element passed the `advDataLength >= 16` gate and carries the
`{0x1A, 0x18}` signature. -/
def atcDecode (advData : List ℕ) (sd0 : SensorData) : SensorData :=
  { sd0 with id := advData.getD 14 0,
             model := "ATC",
             temperatureCelcius :=
               (((advData.getD 8 0) * 256 + advData.getD 9 0 : ℕ) : ℚ) / 10,
             humidityPercent := ((advData.getD 10 0 : ℕ) : ℚ),
             batteryPercent := ((advData.getD 11 0 : ℕ) : ℚ) }

/-- The Service-Data dispatch (main.go lines 185-231): the branch taken when
the element type code is `0x16`.  Go's `&&` short-circuits, so the length
inequality gates the signature-byte reads; `List.getD` keeps the model total
while the gates ensure the default is never consulted on the source's paths. -/
def processServiceData (advDataLength : ℕ) (advData : List ℕ)
    (sd : SensorData) : SensorData :=
  if 18 ≤ advDataLength ∧ advData.getD 0 0 = 0x95 ∧ advData.getD 1 0 = 0xFE then
    xiaomiDecode advDataLength advData sd
  else if 16 ≤ advDataLength ∧ advData.getD 0 0 = 0x1A ∧ advData.getD 1 0 = 0x18
  then
    atcDecode advData sd
  else sd

/-- The envelope-walker loop of `parseAdvertisementReportData` (main.go lines
179-233).  The Go loop condition `packetPointer < len(advRawData)-1` over Go
ints is `packetPointer + 1 < advRawData.length` over `ℕ` (for length `0` the
Go right-hand side is `-1` and the loop does not run, matching `p + 1 < 0`
being false).  The slice expression
`advRawData[packetPointer+2 : packetPointer+advDataLength+2]` panics when its
upper bound exceeds the buffer length; that panic is the `none` result. -/
def parseLoop (advRawData : List ℕ) (sd : SensorData) (packetPointer : ℕ) :
    Option SensorData :=
  if h : packetPointer + 1 < advRawData.length then
    let advDataLength := advRawData.getD packetPointer 0
    let advDataModel := advRawData.getD (packetPointer + 1) 0
    if packetPointer + advDataLength + 2 ≤ advRawData.length then
      let advData := (advRawData.drop (packetPointer + 2)).take advDataLength
      let sd1 := if advDataModel = 0x16 then
          processServiceData advDataLength advData sd
        else sd
      parseLoop advRawData sd1 (packetPointer + advDataLength + 1)
    else none
  else some sd
termination_by advRawData.length - packetPointer
decreasing_by omega

/-- The Go return value `(*SensorData, error)` of
`parseAdvertisementReportData`: a possibly-nil pointer and a possibly-nil
error. -/
structure GoResult where
  reading : Option SensorData
  err : Option String
deriving Repr, DecidableEq

/-- `parseAdvertisementReportData` (main.go lines 172-235) on the raw
advertisement bytes.  The function's only `return` statement is
`return sensorData, nil`; `none` models a runtime panic escaping the loop. -/
def parseAdvertisementReportData (advRawData : List ℕ) : Option GoResult :=
  (parseLoop advRawData initialSensorData 0).map
    (fun sd => { reading := some sd, err := none })

/-- Big-endian 16-bit read at offsets `i`, `i+1`: the byte at the lower offset
is the high-order byte.  This is the interpretation the spec's decode table
asserts; the source is compared against it. -/
def be16 (d : List ℕ) (i : ℕ) : ℕ := (d.getD i 0) * 256 + d.getD (i + 1) 0

/-- Two's-complement signed interpretation of a 16-bit word: the `i16` of the
spec's decode table. -/
def toI16 (w : ℕ) : ℤ := if w < 32768 then (w : ℤ) else (w : ℤ) - 65536

/-- Pointwise update of a total map, modelling `m[k] = v` on a Go map and
`vec.With(label).Set(v)` on a Prometheus vector. -/
def setMap {α β : Type} [DecidableEq α] (m : α → β) (k : α) (v : β) : α → β :=
  fun a => if a = k then v else m a

/-- A Prometheus label set `{"mac", "name", "model"}` in that order. -/
abbrev Label := String × String × String

/-- The two global flags `advScanHandler` consults (`flagDebug`,
`flagVerbose`). -/
structure Config where
  flagDebug : Bool
  flagVerbose : Bool
deriving Repr, DecidableEq

/-- The fields of `ble.Advertisement` that `advScanHandler` reads: `Addr()`
(canonical lowercase string), `RSSI()`, `Connectable()`, `LocalName()`,
`Data()`. -/
structure Advertisement where
  addr : String
  rssi : ℤ
  connectable : Bool
  localName : String
  data : List ℕ
deriving Repr, DecidableEq

/-- The mutable globals `advScanHandler` touches: the `discoverMap`,
`timeOutMap` and `namesMap` maps and every Prometheus counter/gauge it
writes.  A gauge cell that has never been written is `none`; `timeOutMap`
entries that were never written are `none` (Go map lookup default is only
relevant for `discoverMap`, whose absent entries read as `false`, and
`namesMap`, whose absent entries read as `""` — both are total functions
here). -/
structure HandlerState where
  discoverMap : String → Bool
  timeOutMap : String → Option ℤ
  namesMap : String → String
  advertisementCount : ℕ
  advertisementSupportedCount : ℕ
  deviceCount : ℕ
  deviceSupportedCount : ℕ
  temperatureGauge : Label → Option ℚ
  humidityGauge : Label → Option ℚ
  batteryGauge : Label → Option ℚ
  signalGauge : Label → Option ℚ
  lastSeenGauge : Label → Option ℤ
  deviceAdvCount : Label → ℕ

/-- Process start: empty maps, zero counters, untouched gauges. -/
def initialHandlerState : HandlerState :=
  { discoverMap := fun _ => false,
    timeOutMap := fun _ => none,
    namesMap := fun _ => "",
    advertisementCount := 0,
    advertisementSupportedCount := 0,
    deviceCount := 0,
    deviceSupportedCount := 0,
    temperatureGauge := fun _ => none,
    humidityGauge := fun _ => none,
    batteryGauge := fun _ => none,
    signalGauge := fun _ => none,
    lastSeenGauge := fun _ => none,
    deviceAdvCount := fun _ => 0 }

/-- `advScanHandler` (main.go lines 117-170) as a state transformer.  `now` is
`time.Now().Unix()`.  `none` models a runtime panic propagating out of
`parseAdvertisementReportData` (or a nil `sensorData` dereference at line
134/154, which the parser never produces).  Log output has no effect on the
modelled state and is omitted; `getMacName` is the `namesMap` lookup. -/
def advScanHandlerM (cfg : Config) (st : HandlerState) (a : Advertisement)
    (now : ℤ) : Option HandlerState :=
  match parseAdvertisementReportData a.data with
  | none => none
  | some r =>
    match r.err with
    | some _ =>
      some (if !(st.discoverMap a.addr) || cfg.flagDebug then
              { st with discoverMap := setMap st.discoverMap a.addr true }
            else st)
    | none =>
      match r.reading with
      | none => none
      | some sd =>
        let name := st.namesMap a.addr
        let label : Label := (a.addr, name, sd.model)
        let st1 :=
          if sd.model ≠ "Unknown" then
            { st with
              temperatureGauge :=
                if sd.temperatureCelcius ≠ undefined then
                  setMap st.temperatureGauge label (some sd.temperatureCelcius)
                else st.temperatureGauge,
              humidityGauge :=
                if sd.humidityPercent ≠ undefined then
                  setMap st.humidityGauge label (some sd.humidityPercent)
                else st.humidityGauge,
              batteryGauge :=
                if sd.batteryPercent ≠ undefined then
                  setMap st.batteryGauge label (some sd.batteryPercent)
                else st.batteryGauge,
              deviceAdvCount :=
                setMap st.deviceAdvCount label (st.deviceAdvCount label + 1),
              signalGauge := setMap st.signalGauge label (some (a.rssi : ℚ)),
              lastSeenGauge := setMap st.lastSeenGauge label (some now),
              advertisementSupportedCount :=
                st.advertisementSupportedCount + 1 }
          else st
        let st2 :=
          { st1 with timeOutMap := setMap st1.timeOutMap a.addr (some now),
                     advertisementCount := st1.advertisementCount + 1 }
        if !(st2.discoverMap a.addr) || cfg.flagDebug then
          let st3 :=
            if sd.model ≠ "Unknown" ∧ sd.model ≠ "Error" ∧
                sd.model ≠ "Unsupported" then
              { st2 with deviceSupportedCount := st2.deviceSupportedCount + 1 }
            else st2
          some { st3 with discoverMap := setMap st3.discoverMap a.addr true,
                          deviceCount := st3.deviceCount + 1 }
        else some st2

/-- A strictly sequential scan: advertisements (with their arrival times) are
fed to `advScanHandlerM` one at a time, as `ble.Scan` does with
`advScanHandler`. -/
def processTrace (cfg : Config) :
    HandlerState → List (Advertisement × ℤ) → Option HandlerState
  | st, [] => some st
  | st, (a, t) :: rest =>
    match advScanHandlerM cfg st a t with
    | none => none
    | some st1 => processTrace cfg st1 rest

/-- The Device State Tracker's `observe` step, as implemented by the
`discoverMap` logic of main.go lines 153-169: `shouldEmitDetailedLog` is
`!discoverMap[addr] || forceVerbose` (`forceVerbose` is `flagDebug`), and
whenever it is true the handler executes `discoverMap[addr] = true` before
returning.  Returns the flag and the updated map. -/
def observe (m : String → Bool) (addr : String) (forceVerbose : Bool) :
    Bool × (String → Bool) :=
  let shouldEmit := !(m addr) || forceVerbose
  (shouldEmit, if shouldEmit then setMap m addr true else m)

/-- The outcome of `os.Open` plus `csv.NewReader(f).ReadAll()` in
`loadNamesCSVFile`: `Except.error` is a failed open or a CSV parse error,
`Except.ok rows` the parsed records. -/
abbrev CSVReadResult := Except String (List (List String))

/-- The record-insertion loop of `loadNamesCSVFile` (main.go lines 318-322):
`namesMap[strings.ToLower(line[0])] = line[1]`.  A record with fewer than two
fields makes Go's `line[1]` (or `line[0]`) panic with an index-out-of-range
runtime error, modelled as `none`. -/
def loadNamesRows (rows : List (List String)) (m : String → String) :
    Option (String → String) :=
  match rows with
  | [] => some m
  | line :: rest =>
    match line with
    | a :: b :: _ => loadNamesRows rest (setMap m a.toLower b)
    | _ => none

/-- `loadNamesCSVFile` (main.go lines 305-324) over the outcome of the file
open/CSV read: on either failure it logs and returns leaving `namesMap`
untouched; on success it runs the insertion loop. -/
def loadNamesCSVFile (readResult : CSVReadResult) (m : String → String) :
    Option (String → String) :=
  match readResult with
  | Except.error _ => some m
  | Except.ok rows => loadNamesRows rows m

/-! ## Helper lemmas -/

/-- The parser's only success shape: `return sensorData, nil` with a non-nil
pointer (main.go line 234). -/
theorem parse_success_shape (advRawData : List ℕ) (r : GoResult)
    (h : parseAdvertisementReportData advRawData = some r) :
    r.err = none ∧ r.reading.isSome = true := by
  unfold parseAdvertisementReportData at h
  cases hp : parseLoop advRawData initialSensorData 0 with
  | none => rw [hp] at h; simp at h
  | some sd =>
    rw [hp] at h
    have h2 : ({ reading := some sd, err := none } : GoResult) = r := by
      simpa using h
    rw [← h2]
    exact ⟨rfl, rfl⟩

/-- A nonnegative rational over 10 is never the `-99.9` sentinel. -/
theorem natDiv10_ne_undefined (n : ℕ) : ((n : ℚ)) / 10 ≠ undefined := by
  intro h
  have h0 : (0 : ℚ) ≤ (n : ℚ) / 10 := by positivity
  rw [h] at h0
  norm_num [undefined] at h0

/-- A natural number cast to `ℚ` is never the `-99.9` sentinel. -/
theorem natCast_ne_undefined (n : ℕ) : ((n : ℕ) : ℚ) ≠ undefined := by
  intro h
  have h0 : (0 : ℚ) ≤ ((n : ℕ) : ℚ) := by positivity
  rw [h] at h0
  norm_num [undefined] at h0

/-! ## C1 -/

/-- C1: the claim says a declared element length that would read past the end
of the buffer is treated as a decode failure, with no propagated fault.  The
source instead evaluates the slice expression
`advRawData[packetPointer+2 : packetPointer+advDataLength+2]` whose upper
bound exceeds the buffer, a Go runtime panic (modelled as `none`): on the
two-byte input `[0x05, 0x16]` the declared length 5 overruns the buffer and
the walker faults rather than yielding a clean no-reading failure. -/
theorem c1_overlong_length_faults :
    parseAdvertisementReportData [5, 22] = none := by
  simp [parseAdvertisementReportData, parseLoop]

/-! ## C9 -/

/-- C9: the claim says a malformed names file, including rows without two
columns, degrades to an empty directory and never crashes.  The source's
insertion loop executes `namesMap[strings.ToLower(line[0])] = line[1]`
unconditionally, so a CSV file whose records have a single column (for
example a file holding the single line `a4:c1:38:d0:2c:ec`) panics with an
index-out-of-range runtime error (modelled as `none`) and crashes the
process. -/
theorem c9_one_column_row_panics :
    loadNamesCSVFile (Except.ok [["a4:c1:38:d0:2c:ec"]]) (fun _ => "") =
      none := rfl

/-! ## C8 -/

/-- C8: two immediately consecutive `observe` calls for the same address with
`forceVerbose = false` yield `shouldEmitDetailedLog = true` then `false`,
because the first true result marks the address in `discoverMap`.  The
hypothesis `m addr = false` is the tracker's initial condition for the
address (`everLogged` not yet set). -/
theorem c8_observe_true_then_false (m : String → Bool) (addr : String)
    (h : m addr = false) :
    (observe m addr false).1 = true ∧
    (observe (observe m addr false).2 addr false).1 = false := by
  simp [observe, setMap, h]

/-- Witness for C8 at the empty tracker state and address `"aa"`. -/
theorem c8_observe_true_then_false_witness :
    ((fun _ : String => false) "aa" = false) ∧
    ((observe (fun _ => false) "aa" false).1 = true ∧
     (observe (observe (fun _ => false) "aa" false).2 "aa" false).1 = false) :=
  ⟨rfl, c8_observe_true_then_false (fun _ => false) "aa" rfl⟩

/-! ## C6 -/

/-- C6: a Service-Data element whose first two payload bytes are
`{0x95, 0xFE}` but whose declared length is below the 18-byte gate leaves
the sensor data completely unchanged (in particular a model that is
`"Unknown"` stays `"Unknown"`, never `"Error"`, because the length gate
short-circuits before any Xiaomi field extraction), and the envelope walk
continues with the next element of the same advertisement.  The hypotheses
describe an element at cursor `p`: its length byte, the `0x16` type code,
the in-bounds slice, the signature bytes of its payload, and the failed
length gate. -/
theorem c6_short_xiaomi_element_skipped (advRawData : List ℕ)
    (sd : SensorData) (p advDataLength : ℕ)
    (hlt : advDataLength < 18)
    (hp : p + 1 < advRawData.length)
    (hL : advRawData.getD p 0 = advDataLength)
    (hT : advRawData.getD (p + 1) 0 = 0x16)
    (hfit : p + advDataLength + 2 ≤ advRawData.length)
    (h95 : ((advRawData.drop (p + 2)).take advDataLength).getD 0 0 = 0x95)
    (hFE : ((advRawData.drop (p + 2)).take advDataLength).getD 1 0 = 0xFE) :
    processServiceData advDataLength
        ((advRawData.drop (p + 2)).take advDataLength) sd = sd ∧
    parseLoop advRawData sd p =
      parseLoop advRawData sd (p + advDataLength + 1) := by
  have hps : processServiceData advDataLength
      ((advRawData.drop (p + 2)).take advDataLength) sd = sd := by
    unfold processServiceData
    rw [if_neg, if_neg]
    · rintro ⟨-, hA, -⟩
      rw [h95] at hA
      exact absurd hA (by decide)
    · rintro ⟨h18, -, -⟩
      omega
  refine ⟨hps, ?_⟩
  have hL2 := hL
  have hT2 := hT
  simp only [List.getD_eq_getElem?_getD] at hL2 hT2
  rw [parseLoop, dif_pos hp]
  simp [hL2, hT2, hL, hT, hfit, hps]

/-- Witness for C6 on the concrete advertisement `[3, 0x16, 0x95, 0xFE, 0]`:
a single Service-Data element of declared length 3 carrying the Xiaomi
signature. -/
theorem c6_short_xiaomi_element_skipped_witness :
    (3 < 18 ∧ 0 + 1 < ([3, 22, 149, 254, 0] : List ℕ).length ∧
      ([3, 22, 149, 254, 0] : List ℕ).getD 0 0 = 3 ∧
      ([3, 22, 149, 254, 0] : List ℕ).getD 1 0 = 0x16 ∧
      0 + 3 + 2 ≤ ([3, 22, 149, 254, 0] : List ℕ).length ∧
      ((([3, 22, 149, 254, 0] : List ℕ).drop 2).take 3).getD 0 0 = 0x95 ∧
      ((([3, 22, 149, 254, 0] : List ℕ).drop 2).take 3).getD 1 0 = 0xFE) ∧
    (processServiceData 3 ((([3, 22, 149, 254, 0] : List ℕ).drop 2).take 3)
        initialSensorData = initialSensorData ∧
      parseLoop [3, 22, 149, 254, 0] initialSensorData 0 =
        parseLoop [3, 22, 149, 254, 0] initialSensorData 4) :=
  ⟨⟨by decide, by decide, by decide, by decide, by decide, by decide,
    by decide⟩,
   c6_short_xiaomi_element_skipped [3, 22, 149, 254, 0] initialSensorData 0 3
     (by decide) (by decide) (by decide) (by decide) (by decide) (by decide)
     (by decide)⟩

/-! ## Field characterization of the Xiaomi decoder -/

/-- `modelID` is assembled once, from payload byte 4 as low byte and byte 5
as high byte, and never changed afterwards. -/
theorem xiaomiDecode_modelID (advDataLength : ℕ) (d : List ℕ)
    (sd : SensorData) :
    (xiaomiDecode advDataLength d sd).modelID =
      (d.getD 5 0) * 256 + d.getD 4 0 := by
  simp only [xiaomiDecode]
  split_ifs <;> rfl

/-- `frameType` is payload byte 13 on every path. -/
theorem xiaomiDecode_type (advDataLength : ℕ) (d : List ℕ) (sd : SensorData) :
    (xiaomiDecode advDataLength d sd).type = d.getD 13 0 := by
  simp only [xiaomiDecode]
  split_ifs <;> rfl

/-- `deviceSequenceID` is payload byte 6 on every path. -/
theorem xiaomiDecode_id (advDataLength : ℕ) (d : List ℕ) (sd : SensorData) :
    (xiaomiDecode advDataLength d sd).id = d.getD 6 0 := by
  simp only [xiaomiDecode]
  split_ifs <;> rfl

/-- The model classification depends only on `modelID` and is unchanged by
the frame decode. -/
theorem xiaomiDecode_model (advDataLength : ℕ) (d : List ℕ) (sd : SensorData) :
    (xiaomiDecode advDataLength d sd).model =
      (if (d.getD 5 0) * 256 + d.getD 4 0 = 0x01aa then "LYWSDCGQ"
       else if (d.getD 5 0) * 256 + d.getD 4 0 = 0x045b then "Unsupported"
       else "Error") := by
  simp only [xiaomiDecode]
  split_ifs <;> rfl

/-- The temperature field is written exactly on the table rows
`(0x0D, 4, 21)`, `(0x0D, 4, 25)`, `(0x04, 2, 19)`, `(0x04, 2, 23)`, always
as the word with payload byte 16 low and byte 17 high, divided by 10. -/
theorem xiaomiDecode_temperature (advDataLength : ℕ) (d : List ℕ)
    (sd : SensorData) :
    (xiaomiDecode advDataLength d sd).temperatureCelcius =
      (if (d.getD 13 0 = 0x0D ∧ d.getD 15 0 = 4 ∧
             (advDataLength = 21 ∨ advDataLength = 25)) ∨
          (d.getD 13 0 = 0x04 ∧ d.getD 15 0 = 2 ∧
             (advDataLength = 19 ∨ advDataLength = 23)) then
         (((d.getD 17 0) * 256 + d.getD 16 0 : ℕ) : ℚ) / 10
       else sd.temperatureCelcius) := by
  simp only [xiaomiDecode]
  split_ifs <;> first | rfl | omega | (exfalso; omega)

set_option maxHeartbeats 1600000 in
set_option maxRecDepth 8000 in
/-- The humidity field is written exactly on the table rows `(0x0D, 4, 21)`,
`(0x0D, 4, 25)` (word at bytes 18/19) and `(0x06, 2, 19)`, `(0x06, 2, 23)`
(word at bytes 16/17), in both cases with the lower offset as low byte,
divided by 10. -/
theorem xiaomiDecode_humidity (advDataLength : ℕ) (d : List ℕ)
    (sd : SensorData) :
    (xiaomiDecode advDataLength d sd).humidityPercent =
      (if d.getD 13 0 = 0x0D ∧ d.getD 15 0 = 4 ∧
           (advDataLength = 21 ∨ advDataLength = 25) then
         (((d.getD 19 0) * 256 + d.getD 18 0 : ℕ) : ℚ) / 10
       else if d.getD 13 0 = 0x06 ∧ d.getD 15 0 = 2 ∧
           (advDataLength = 19 ∨ advDataLength = 23) then
         (((d.getD 17 0) * 256 + d.getD 16 0 : ℕ) : ℚ) / 10
       else sd.humidityPercent) := by
  simp only [xiaomiDecode]
  split_ifs <;> first | rfl | omega | (exfalso; omega)

set_option maxHeartbeats 1600000 in
/-- The battery field is written exactly on the table rows `(0x0D, 4, 25)`
(byte 23), `(0x0A, 1, 18)` (byte 16), `(0x06, 2, 23)` and `(0x04, 2, 23)`
(byte 21), as a whole-number percentage. -/
theorem xiaomiDecode_battery (advDataLength : ℕ) (d : List ℕ)
    (sd : SensorData) :
    (xiaomiDecode advDataLength d sd).batteryPercent =
      (if d.getD 13 0 = 0x0D ∧ d.getD 15 0 = 4 ∧ advDataLength = 25 then
         ((d.getD 23 0 : ℕ) : ℚ)
       else if d.getD 13 0 = 0x0A ∧ d.getD 15 0 = 1 ∧ advDataLength = 18 then
         ((d.getD 16 0 : ℕ) : ℚ)
       else if (d.getD 13 0 = 0x06 ∨ d.getD 13 0 = 0x04) ∧
           d.getD 15 0 = 2 ∧ advDataLength = 23 then
         ((d.getD 21 0 : ℕ) : ℚ)
       else sd.batteryPercent) := by
  simp only [xiaomiDecode]
  split_ifs <;> first | rfl | omega | (exfalso; omega)

/-- Under the Xiaomi gate, the Service-Data dispatch reaches the Xiaomi
decoder. -/
theorem processServiceData_xiaomi (advDataLength : ℕ) (d : List ℕ)
    (sd : SensorData) (h18 : 18 ≤ advDataLength)
    (h0 : d.getD 0 0 = 0x95) (h1 : d.getD 1 0 = 0xFE) :
    processServiceData advDataLength d sd = xiaomiDecode advDataLength d sd := by
  unfold processServiceData
  rw [if_pos ⟨h18, h0, h1⟩]

/-- Under the ATC gate, the Service-Data dispatch reaches the ATC decoder. -/
theorem processServiceData_atc (advDataLength : ℕ) (d : List ℕ)
    (sd : SensorData) (h16 : 16 ≤ advDataLength)
    (h0 : d.getD 0 0 = 0x1A) (h1 : d.getD 1 0 = 0x18) :
    processServiceData advDataLength d sd = atcDecode d sd := by
  unfold processServiceData
  rw [if_neg, if_pos ⟨h16, h0, h1⟩]
  rintro ⟨-, hA, -⟩
  rw [h0] at hA
  exact absurd hA (by decide)

/-! ## C5 -/

/-- The spec's end-to-end scenario A element payload: ATC signature, raw
temperature `0x00F4` at offsets 8-9, humidity byte `0x3C` at 10, battery
byte `0x52` at 11, sequence byte 7 at 14. -/
def atcPayloadA : List ℕ :=
  [0x1A, 0x18, 0, 0, 0, 0, 0, 0, 0x00, 0xF4, 0x3C, 0x52, 0, 0, 7, 0]

/-- An ATC element payload whose raw temperature word `0xFF38` has the sign
bit set (`-20.0` °C as a signed 16-bit value). -/
def atcPayloadNeg : List ℕ :=
  [0x1A, 0x18, 0, 0, 0, 0, 0, 0, 0xFF, 0x38, 0x3C, 0x52, 0, 0, 7, 0]

/-- A full advertisement holding `atcPayloadNeg` as its single Service-Data
element (declared length 16, type code `0x16`). -/
def atcAdvNeg : List ℕ := 16 :: 0x16 :: atcPayloadNeg

/-- C5 counterexample: the claim reads the ATC temperature as a big-endian
*signed* 16-bit value.  The source computes
`(int(advData[8])<<8)+int(advData[9])` from non-negative byte-to-int
conversions, an *unsigned* read: on the word `0xFF38` the program yields
`6533.6` where the claimed signed interpretation yields `-20.0`. -/
theorem c5_counterexample_atc_unsigned :
    ((parseAdvertisementReportData atcAdvNeg).map fun r =>
        r.reading.map fun sd => sd.temperatureCelcius) =
      some (some (65336 / 10)) ∧
    (toI16 (be16 atcPayloadNeg 8) : ℚ) / 10 = -20 ∧
    (65336 / 10 : ℚ) ≠ -20 := by
  refine ⟨?_, by norm_num [toI16, be16, atcPayloadNeg], by norm_num⟩
  simp [parseAdvertisementReportData, parseLoop, atcAdvNeg, atcPayloadNeg,
    processServiceData, atcDecode, initialSensorData]

/-- C5 as amended: for every Service-Data element matching the ATC signature
`{0x1A, 0x18}` with declared length at least 16, the decode is total:
model = `"ATC"`, `deviceSequenceID` = byte 14, temperature = big-endian
**unsigned** 16-bit word at offsets 8-9 divided by 10 (not the claimed
signed i16), humidity = byte 10, battery = byte 11, and all three
measurements are present (never the `undefined` sentinel); in particular the
scenario-A payload decodes to temperature 24.4, humidity 60, battery 82
(see the witness). -/
theorem c5_atc_decode_total (advDataLength : ℕ) (advData : List ℕ)
    (sd : SensorData) (h16 : 16 ≤ advDataLength)
    (h0 : advData.getD 0 0 = 0x1A) (h1 : advData.getD 1 0 = 0x18) :
    (processServiceData advDataLength advData sd).model = "ATC" ∧
    (processServiceData advDataLength advData sd).id = advData.getD 14 0 ∧
    (processServiceData advDataLength advData sd).temperatureCelcius =
      ((be16 advData 8 : ℕ) : ℚ) / 10 ∧
    (processServiceData advDataLength advData sd).humidityPercent =
      ((advData.getD 10 0 : ℕ) : ℚ) ∧
    (processServiceData advDataLength advData sd).batteryPercent =
      ((advData.getD 11 0 : ℕ) : ℚ) ∧
    (processServiceData advDataLength advData sd).temperatureCelcius ≠
      undefined ∧
    (processServiceData advDataLength advData sd).humidityPercent ≠
      undefined ∧
    (processServiceData advDataLength advData sd).batteryPercent ≠
      undefined := by
  rw [processServiceData_atc advDataLength advData sd h16 h0 h1]
  unfold atcDecode be16
  refine ⟨rfl, rfl, by norm_num, rfl, rfl, ?_, ?_, ?_⟩
  · exact natDiv10_ne_undefined _
  · exact natCast_ne_undefined _
  · exact natCast_ne_undefined _

/-- Witness for C5 on the scenario-A payload: the gates hold and the decode
yields temperature 24.4 (`244/10`), humidity 60, battery 82, sequence 7. -/
theorem c5_atc_decode_total_witness :
    (16 ≤ 16 ∧ atcPayloadA.getD 0 0 = 0x1A ∧ atcPayloadA.getD 1 0 = 0x18) ∧
    ((processServiceData 16 atcPayloadA initialSensorData).model = "ATC" ∧
     (processServiceData 16 atcPayloadA initialSensorData).id = 7 ∧
     (processServiceData 16 atcPayloadA
         initialSensorData).temperatureCelcius = 244 / 10 ∧
     (processServiceData 16 atcPayloadA initialSensorData).humidityPercent =
       60 ∧
     (processServiceData 16 atcPayloadA initialSensorData).batteryPercent =
       82) := by
  have h := c5_atc_decode_total 16 atcPayloadA initialSensorData
    (by decide) (by decide) (by decide)
  refine ⟨⟨by decide, by decide, by decide⟩, h.1, ?_, ?_, ?_, ?_⟩
  · rw [h.2.1]; decide
  · rw [h.2.2.1]; simp [be16, atcPayloadA]
  · rw [h.2.2.2.1]; simp [atcPayloadA]
  · rw [h.2.2.2.2.1]; simp [atcPayloadA]

/-! ## C2 -/

/-- A Xiaomi element payload (length 19): signature `{0x95, 0xFE}`, modelID
bytes `AA 01` at offsets 4-5, sequence 9 at offset 6, frameType `0x04` at
offset 13, subPayloadLength 2 at offset 15, temperature bytes `01 FF` at
offsets 16-17. -/
def xiaomiPayloadC2 : List ℕ :=
  [0x95, 0xFE, 0, 0, 0xAA, 0x01, 9, 0, 0, 0, 0, 0, 0, 0x04, 0, 2,
   0x01, 0xFF, 0]

/-- A full advertisement holding `xiaomiPayloadC2` as its single element. -/
def xiaomiAdvC2 : List ℕ := 19 :: 0x16 :: xiaomiPayloadC2

/-- C2 counterexample: the claim says modelID and the scaled measurement
words are big-endian signed 16-bit reads.  The source assembles
`(int(advData[5])<<8)+int(advData[4])` and
`(int(advData[17])<<8)+int(advData[16])`: the *lower* offset is the *low*
byte (little-endian) and the result is never negative (unsigned).  On this
input the program yields modelID `0x01AA` (not the big-endian `0xAA01`) and
temperature `6528.1` — differing both from the big-endian signed reading
`51.1` and from the little-endian signed reading `-25.5`, so the amendment
must make the reads little-endian *and* unsigned. -/
theorem c2_counterexample_endianness :
    ((parseAdvertisementReportData xiaomiAdvC2).map fun r =>
        r.reading.map fun sd => (sd.modelID, sd.temperatureCelcius)) =
      some (some (0x01AA, 65281 / 10)) ∧
    be16 xiaomiPayloadC2 4 = 0xAA01 ∧ (0x01AA : ℕ) ≠ 0xAA01 ∧
    (toI16 (be16 xiaomiPayloadC2 16) : ℚ) / 10 = 511 / 10 ∧
    (65281 / 10 : ℚ) ≠ 511 / 10 ∧
    (toI16 (xiaomiPayloadC2.getD 17 0 * 256 + xiaomiPayloadC2.getD 16 0) :
        ℚ) / 10 = -255 / 10 ∧
    (65281 / 10 : ℚ) ≠ -255 / 10 := by
  refine ⟨?_, by decide, by decide,
    by norm_num [toI16, be16, xiaomiPayloadC2],
    by norm_num,
    by norm_num [toI16, xiaomiPayloadC2],
    by norm_num⟩
  simp [parseAdvertisementReportData, parseLoop, xiaomiAdvC2,
    xiaomiPayloadC2, processServiceData, xiaomiDecode, initialSensorData]

/-- A Xiaomi element payload (length 21): modelID bytes `AA 01`,
frameType `0x0D`, subPayloadLength 4, temperature bytes `10 01` at offsets
16-17 and humidity bytes `58 02` at offsets 18-19. -/
def xiaomiPayloadD : List ℕ :=
  [0x95, 0xFE, 0, 0, 0xAA, 0x01, 3, 0, 0, 0, 0, 0, 0, 0x0D, 0, 4,
   0x10, 0x01, 0x58, 0x02, 0]

/-- A Xiaomi element payload (length 19): modelID bytes `00 00`
(unrecognized, classification `"Error"`), frameType `0x06`,
subPayloadLength 2, humidity bytes `02 FF` at offsets 16-17. -/
def xiaomiPayloadC4 : List ℕ :=
  [0x95, 0xFE, 0, 0, 0x00, 0x00, 7, 0, 0, 0, 0, 0, 0, 0x06, 0, 2,
   0x02, 0xFF, 0]

/-- C2 as amended: for every Service-Data element matching the Xiaomi
signature with the length gate passed, the 16-bit modelID is decoded
**little-endian** from byte offsets 4-5 (low byte at 4), and every scaled
temperature and humidity word of the decode table is decoded as a
**little-endian unsigned** 16-bit integer (low byte at the lower offset,
value never negative) divided by 10: the temperature word at offsets 16-17
on all four temperature rows (`0x0D` with lengths 21 and 25, `0x04` with
lengths 19 and 23), the humidity word at offsets 18-19 on both `0x0D` rows,
and the humidity word at offsets 16-17 on both `0x06` rows (lengths 19 and
23); the ATC temperature word is the one big-endian read, also unsigned. -/
theorem c2_decoder_endianness (advDataLength : ℕ) (advData : List ℕ)
    (sd : SensorData) (h18 : 18 ≤ advDataLength)
    (h0 : advData.getD 0 0 = 0x95) (h1 : advData.getD 1 0 = 0xFE) :
    (processServiceData advDataLength advData sd).modelID =
      advData.getD 4 0 + 256 * advData.getD 5 0 ∧
    ((advData.getD 13 0 = 0x0D ∧ advData.getD 15 0 = 4 ∧
        (advDataLength = 21 ∨ advDataLength = 25)) ∨
     (advData.getD 13 0 = 0x04 ∧ advData.getD 15 0 = 2 ∧
        (advDataLength = 19 ∨ advDataLength = 23)) →
      (processServiceData advDataLength advData sd).temperatureCelcius =
        ((advData.getD 16 0 + 256 * advData.getD 17 0 : ℕ) : ℚ) / 10 ∧
      0 ≤ (processServiceData advDataLength advData sd).temperatureCelcius) ∧
    (advData.getD 13 0 = 0x0D ∧ advData.getD 15 0 = 4 ∧
        (advDataLength = 21 ∨ advDataLength = 25) →
      (processServiceData advDataLength advData sd).humidityPercent =
        ((advData.getD 18 0 + 256 * advData.getD 19 0 : ℕ) : ℚ) / 10 ∧
      0 ≤ (processServiceData advDataLength advData sd).humidityPercent) ∧
    (advData.getD 13 0 = 0x06 ∧ advData.getD 15 0 = 2 ∧
        (advDataLength = 19 ∨ advDataLength = 23) →
      (processServiceData advDataLength advData sd).humidityPercent =
        ((advData.getD 16 0 + 256 * advData.getD 17 0 : ℕ) : ℚ) / 10 ∧
      0 ≤ (processServiceData advDataLength advData sd).humidityPercent) ∧
    (∀ (e : List ℕ) (len2 : ℕ) (sd2 : SensorData), 16 ≤ len2 →
      e.getD 0 0 = 0x1A → e.getD 1 0 = 0x18 →
      (processServiceData len2 e sd2).temperatureCelcius =
        ((e.getD 8 0 * 256 + e.getD 9 0 : ℕ) : ℚ) / 10 ∧
      0 ≤ (processServiceData len2 e sd2).temperatureCelcius) := by
  rw [processServiceData_xiaomi advDataLength advData sd h18 h0 h1]
  refine ⟨?_, ?_, ?_, ?_, ?_⟩
  · rw [xiaomiDecode_modelID]; ring
  · intro h
    rw [xiaomiDecode_temperature, if_pos h]
    constructor
    · ring_nf
    · positivity
  · intro h
    rw [xiaomiDecode_humidity, if_pos h]
    constructor
    · ring_nf
    · positivity
  · rintro ⟨ht, hd, hl⟩
    rw [xiaomiDecode_humidity, if_neg (by omega), if_pos ⟨ht, hd, hl⟩]
    constructor
    · ring_nf
    · positivity
  · intro e len2 sd2 h16 he0 he1
    rw [processServiceData_atc len2 e sd2 h16 he0 he1]
    unfold atcDecode
    exact ⟨rfl, by positivity⟩

/-- Witness for C2, exercising every conjunct: `xiaomiPayloadC2` (row
`(0x04, 2, 19)`, little-endian modelID and temperature), `xiaomiPayloadD`
(row `(0x0D, 4, 21)`, temperature at 16-17 and humidity at 18-19),
`xiaomiPayloadC4` (row `(0x06, 2, 19)`, humidity at 16-17), and
`atcPayloadA`. -/
theorem c2_decoder_endianness_witness :
    (18 ≤ 19 ∧ xiaomiPayloadC2.getD 0 0 = 0x95 ∧
      xiaomiPayloadC2.getD 1 0 = 0xFE ∧
      xiaomiPayloadC2.getD 13 0 = 0x04 ∧ xiaomiPayloadC2.getD 15 0 = 2 ∧
      18 ≤ 21 ∧ xiaomiPayloadD.getD 0 0 = 0x95 ∧
      xiaomiPayloadD.getD 1 0 = 0xFE ∧
      xiaomiPayloadD.getD 13 0 = 0x0D ∧ xiaomiPayloadD.getD 15 0 = 4 ∧
      xiaomiPayloadC4.getD 13 0 = 0x06 ∧ xiaomiPayloadC4.getD 15 0 = 2) ∧
    (processServiceData 19 xiaomiPayloadC2 initialSensorData).modelID =
      0x01AA ∧
    (processServiceData 19 xiaomiPayloadC2
        initialSensorData).temperatureCelcius = 65281 / 10 ∧
    (processServiceData 21 xiaomiPayloadD
        initialSensorData).temperatureCelcius = 272 / 10 ∧
    (processServiceData 21 xiaomiPayloadD
        initialSensorData).humidityPercent = 600 / 10 ∧
    (processServiceData 19 xiaomiPayloadC4
        initialSensorData).humidityPercent = 65282 / 10 ∧
    (processServiceData 16 atcPayloadA
        initialSensorData).temperatureCelcius = 244 / 10 := by
  have h := c2_decoder_endianness 19 xiaomiPayloadC2 initialSensorData
    (by decide) (by decide) (by decide)
  have hD := c2_decoder_endianness 21 xiaomiPayloadD initialSensorData
    (by decide) (by decide) (by decide)
  have hC4 := c2_decoder_endianness 19 xiaomiPayloadC4 initialSensorData
    (by decide) (by decide) (by decide)
  refine ⟨⟨by decide, by decide, by decide, by decide, by decide, by decide,
    by decide, by decide, by decide, by decide, by decide, by decide⟩,
    ?_, ?_, ?_, ?_, ?_, ?_⟩
  · rw [h.1]; decide
  · rw [(h.2.1 (Or.inr ⟨by decide, by decide, Or.inl rfl⟩)).1]
    simp [xiaomiPayloadC2]
  · rw [(hD.2.1 (Or.inl ⟨by decide, by decide, Or.inl rfl⟩)).1]
    simp [xiaomiPayloadD]
  · rw [(hD.2.2.1 ⟨by decide, by decide, Or.inl rfl⟩).1]
    simp [xiaomiPayloadD]
  · rw [(hC4.2.2.2.1 ⟨by decide, by decide, Or.inl rfl⟩).1]
    simp [xiaomiPayloadC4]
  · rw [(h.2.2.2.2 atcPayloadA 16 initialSensorData (by decide) (by decide)
      (by decide)).1]
    simp [atcPayloadA]

/-! ## C4 -/

/-- A full advertisement holding `xiaomiPayloadC4` as its single element. -/
def xiaomiAdvC4 : List ℕ := 19 :: 0x16 :: xiaomiPayloadC4

/-- C4 counterexample: the decode table's cells say "big-endian i16".  On the
row `(0x06, 2, 19)` with humidity bytes `02 FF` the program yields `6528.2`,
while the table's big-endian signed reading is `76.7` and even a
little-endian *signed* reading would be `-25.4`: the table rows hold only
with little-endian unsigned words. -/
theorem c4_counterexample_table_endianness :
    ((parseAdvertisementReportData xiaomiAdvC4).map fun r =>
        r.reading.map fun sd => (sd.model, sd.humidityPercent)) =
      some (some ("Error", 65282 / 10)) ∧
    (toI16 (be16 xiaomiPayloadC4 16) : ℚ) / 10 = 767 / 10 ∧
    (65282 / 10 : ℚ) ≠ 767 / 10 ∧
    (toI16 (xiaomiPayloadC4.getD 17 0 * 256 + xiaomiPayloadC4.getD 16 0) :
        ℚ) / 10 = -254 / 10 ∧
    (65282 / 10 : ℚ) ≠ -254 / 10 := by
  refine ⟨?_, by norm_num [toI16, be16, xiaomiPayloadC4], by norm_num,
    by norm_num [toI16, xiaomiPayloadC4], by norm_num⟩
  simp [parseAdvertisementReportData, parseLoop, xiaomiAdvC4,
    xiaomiPayloadC4, processServiceData, xiaomiDecode, initialSensorData]

/-- C4 as amended: for every Xiaomi Service-Data element passing the
signature and length gates, each decode-table row — keyed jointly by
`(frameType, subPayloadLength, elementLength)` = bytes 13 and 15 and the
declared length — produces exactly the listed present fields at the listed
byte offsets with the listed division by 10, the words being read
**little-endian unsigned** (low byte at the lower offset; the table claimed
big-endian i16), and leaves the other fields absent (`undefined`); every
combinationTriple not in the table leaves all three measurements absent,
while the model classification (`"Error"`/`"LYWSDCGQ"`/`"Unsupported"` by
modelID) is unaffected by the row dispatch throughout.  `r` is the decode
of the element from the freshly initialized sensor data. -/
theorem c4_xiaomi_decode_table (advDataLength : ℕ) (d : List ℕ)
    (r : SensorData) (h18 : 18 ≤ advDataLength)
    (h0 : d.getD 0 0 = 0x95) (h1 : d.getD 1 0 = 0xFE)
    (hr : r = processServiceData advDataLength d initialSensorData) :
    (r.model = if (d.getD 5 0) * 256 + d.getD 4 0 = 0x01aa then "LYWSDCGQ"
       else if (d.getD 5 0) * 256 + d.getD 4 0 = 0x045b then "Unsupported"
       else "Error") ∧
    (d.getD 13 0 = 0x0D ∧ d.getD 15 0 = 4 ∧ advDataLength = 21 →
      r.temperatureCelcius =
        (((d.getD 17 0) * 256 + d.getD 16 0 : ℕ) : ℚ) / 10 ∧
      r.temperatureCelcius ≠ undefined ∧
      r.humidityPercent =
        (((d.getD 19 0) * 256 + d.getD 18 0 : ℕ) : ℚ) / 10 ∧
      r.humidityPercent ≠ undefined ∧
      r.batteryPercent = undefined) ∧
    (d.getD 13 0 = 0x0D ∧ d.getD 15 0 = 4 ∧ advDataLength = 25 →
      r.temperatureCelcius =
        (((d.getD 17 0) * 256 + d.getD 16 0 : ℕ) : ℚ) / 10 ∧
      r.temperatureCelcius ≠ undefined ∧
      r.humidityPercent =
        (((d.getD 19 0) * 256 + d.getD 18 0 : ℕ) : ℚ) / 10 ∧
      r.humidityPercent ≠ undefined ∧
      r.batteryPercent = ((d.getD 23 0 : ℕ) : ℚ) ∧
      r.batteryPercent ≠ undefined) ∧
    (d.getD 13 0 = 0x0A ∧ d.getD 15 0 = 1 ∧ advDataLength = 18 →
      r.temperatureCelcius = undefined ∧
      r.humidityPercent = undefined ∧
      r.batteryPercent = ((d.getD 16 0 : ℕ) : ℚ) ∧
      r.batteryPercent ≠ undefined) ∧
    (d.getD 13 0 = 0x06 ∧ d.getD 15 0 = 2 ∧ advDataLength = 19 →
      r.temperatureCelcius = undefined ∧
      r.humidityPercent =
        (((d.getD 17 0) * 256 + d.getD 16 0 : ℕ) : ℚ) / 10 ∧
      r.humidityPercent ≠ undefined ∧
      r.batteryPercent = undefined) ∧
    (d.getD 13 0 = 0x06 ∧ d.getD 15 0 = 2 ∧ advDataLength = 23 →
      r.temperatureCelcius = undefined ∧
      r.humidityPercent =
        (((d.getD 17 0) * 256 + d.getD 16 0 : ℕ) : ℚ) / 10 ∧
      r.humidityPercent ≠ undefined ∧
      r.batteryPercent = ((d.getD 21 0 : ℕ) : ℚ) ∧
      r.batteryPercent ≠ undefined) ∧
    (d.getD 13 0 = 0x04 ∧ d.getD 15 0 = 2 ∧ advDataLength = 19 →
      r.temperatureCelcius =
        (((d.getD 17 0) * 256 + d.getD 16 0 : ℕ) : ℚ) / 10 ∧
      r.temperatureCelcius ≠ undefined ∧
      r.humidityPercent = undefined ∧
      r.batteryPercent = undefined) ∧
    (d.getD 13 0 = 0x04 ∧ d.getD 15 0 = 2 ∧ advDataLength = 23 →
      r.temperatureCelcius =
        (((d.getD 17 0) * 256 + d.getD 16 0 : ℕ) : ℚ) / 10 ∧
      r.temperatureCelcius ≠ undefined ∧
      r.humidityPercent = undefined ∧
      r.batteryPercent = ((d.getD 21 0 : ℕ) : ℚ) ∧
      r.batteryPercent ≠ undefined) ∧
    (¬ ((d.getD 13 0 = 0x0D ∧ d.getD 15 0 = 4 ∧
           (advDataLength = 21 ∨ advDataLength = 25)) ∨
        (d.getD 13 0 = 0x0A ∧ d.getD 15 0 = 1 ∧ advDataLength = 18) ∨
        (d.getD 13 0 = 0x06 ∧ d.getD 15 0 = 2 ∧
           (advDataLength = 19 ∨ advDataLength = 23)) ∨
        (d.getD 13 0 = 0x04 ∧ d.getD 15 0 = 2 ∧
           (advDataLength = 19 ∨ advDataLength = 23))) →
      r.temperatureCelcius = undefined ∧
      r.humidityPercent = undefined ∧
      r.batteryPercent = undefined) := by
  subst hr
  rw [processServiceData_xiaomi advDataLength d initialSensorData h18 h0 h1]
  refine ⟨by rw [xiaomiDecode_model], ?_, ?_, ?_, ?_, ?_, ?_, ?_, ?_⟩
  · rintro ⟨ht, hd, hl⟩
    refine ⟨?_, ?_, ?_, ?_, ?_⟩
    · rw [xiaomiDecode_temperature,
        if_pos (Or.inl ⟨ht, hd, Or.inl hl⟩)]
    · rw [xiaomiDecode_temperature,
        if_pos (Or.inl ⟨ht, hd, Or.inl hl⟩)]
      exact natDiv10_ne_undefined _
    · rw [xiaomiDecode_humidity, if_pos ⟨ht, hd, Or.inl hl⟩]
    · rw [xiaomiDecode_humidity, if_pos ⟨ht, hd, Or.inl hl⟩]
      exact natDiv10_ne_undefined _
    · rw [xiaomiDecode_battery, if_neg (by omega), if_neg (by omega),
        if_neg (by omega)]
      rfl
  · rintro ⟨ht, hd, hl⟩
    refine ⟨?_, ?_, ?_, ?_, ?_, ?_⟩
    · rw [xiaomiDecode_temperature,
        if_pos (Or.inl ⟨ht, hd, Or.inr hl⟩)]
    · rw [xiaomiDecode_temperature,
        if_pos (Or.inl ⟨ht, hd, Or.inr hl⟩)]
      exact natDiv10_ne_undefined _
    · rw [xiaomiDecode_humidity, if_pos ⟨ht, hd, Or.inr hl⟩]
    · rw [xiaomiDecode_humidity, if_pos ⟨ht, hd, Or.inr hl⟩]
      exact natDiv10_ne_undefined _
    · rw [xiaomiDecode_battery, if_pos ⟨ht, hd, hl⟩]
    · rw [xiaomiDecode_battery, if_pos ⟨ht, hd, hl⟩]
      exact natCast_ne_undefined _
  · rintro ⟨ht, hd, hl⟩
    refine ⟨?_, ?_, ?_, ?_⟩
    · rw [xiaomiDecode_temperature, if_neg (by omega)]
      rfl
    · rw [xiaomiDecode_humidity, if_neg (by omega), if_neg (by omega)]
      rfl
    · rw [xiaomiDecode_battery, if_neg (by omega), if_pos ⟨ht, hd, hl⟩]
    · rw [xiaomiDecode_battery, if_neg (by omega), if_pos ⟨ht, hd, hl⟩]
      exact natCast_ne_undefined _
  · rintro ⟨ht, hd, hl⟩
    refine ⟨?_, ?_, ?_, ?_⟩
    · rw [xiaomiDecode_temperature, if_neg (by omega)]
      rfl
    · rw [xiaomiDecode_humidity, if_neg (by omega),
        if_pos ⟨ht, hd, Or.inl hl⟩]
    · rw [xiaomiDecode_humidity, if_neg (by omega),
        if_pos ⟨ht, hd, Or.inl hl⟩]
      exact natDiv10_ne_undefined _
    · rw [xiaomiDecode_battery, if_neg (by omega), if_neg (by omega),
        if_neg (by omega)]
      rfl
  · rintro ⟨ht, hd, hl⟩
    refine ⟨?_, ?_, ?_, ?_, ?_⟩
    · rw [xiaomiDecode_temperature, if_neg (by omega)]
      rfl
    · rw [xiaomiDecode_humidity, if_neg (by omega),
        if_pos ⟨ht, hd, Or.inr hl⟩]
    · rw [xiaomiDecode_humidity, if_neg (by omega),
        if_pos ⟨ht, hd, Or.inr hl⟩]
      exact natDiv10_ne_undefined _
    · rw [xiaomiDecode_battery, if_neg (by omega), if_neg (by omega),
        if_pos ⟨Or.inl ht, hd, hl⟩]
    · rw [xiaomiDecode_battery, if_neg (by omega), if_neg (by omega),
        if_pos ⟨Or.inl ht, hd, hl⟩]
      exact natCast_ne_undefined _
  · rintro ⟨ht, hd, hl⟩
    refine ⟨?_, ?_, ?_, ?_⟩
    · rw [xiaomiDecode_temperature,
        if_pos (Or.inr ⟨ht, hd, Or.inl hl⟩)]
    · rw [xiaomiDecode_temperature,
        if_pos (Or.inr ⟨ht, hd, Or.inl hl⟩)]
      exact natDiv10_ne_undefined _
    · rw [xiaomiDecode_humidity, if_neg (by omega), if_neg (by omega)]
      rfl
    · rw [xiaomiDecode_battery, if_neg (by omega), if_neg (by omega),
        if_neg (by omega)]
      rfl
  · rintro ⟨ht, hd, hl⟩
    refine ⟨?_, ?_, ?_, ?_, ?_⟩
    · rw [xiaomiDecode_temperature,
        if_pos (Or.inr ⟨ht, hd, Or.inr hl⟩)]
    · rw [xiaomiDecode_temperature,
        if_pos (Or.inr ⟨ht, hd, Or.inr hl⟩)]
      exact natDiv10_ne_undefined _
    · rw [xiaomiDecode_humidity, if_neg (by omega), if_neg (by omega)]
      rfl
    · rw [xiaomiDecode_battery, if_neg (by omega), if_neg (by omega),
        if_pos ⟨Or.inr ht, hd, hl⟩]
    · rw [xiaomiDecode_battery, if_neg (by omega), if_neg (by omega),
        if_pos ⟨Or.inr ht, hd, hl⟩]
      exact natCast_ne_undefined _
  · intro hnot
    refine ⟨?_, ?_, ?_⟩
    · rw [xiaomiDecode_temperature, if_neg (by omega)]
      rfl
    · rw [xiaomiDecode_humidity, if_neg (by omega), if_neg (by omega)]
      rfl
    · rw [xiaomiDecode_battery, if_neg (by omega), if_neg (by omega),
        if_neg (by omega)]
      rfl

/-- Witness for C4 on `xiaomiPayloadC4`: row `(0x06, 2, 19)` yields a present
humidity of `6528.2` (bytes `02 FF`, little-endian unsigned, divided by 10),
absent temperature and battery, and classification `"Error"`. -/
theorem c4_xiaomi_decode_table_witness :
    (18 ≤ 19 ∧ xiaomiPayloadC4.getD 0 0 = 0x95 ∧
      xiaomiPayloadC4.getD 1 0 = 0xFE ∧
      xiaomiPayloadC4.getD 13 0 = 0x06 ∧ xiaomiPayloadC4.getD 15 0 = 2) ∧
    ((processServiceData 19 xiaomiPayloadC4 initialSensorData).model =
      "Error" ∧
     (processServiceData 19 xiaomiPayloadC4
         initialSensorData).temperatureCelcius = undefined ∧
     (processServiceData 19 xiaomiPayloadC4
         initialSensorData).humidityPercent = 65282 / 10 ∧
     (processServiceData 19 xiaomiPayloadC4
         initialSensorData).batteryPercent = undefined) := by
  have h := c4_xiaomi_decode_table 19 xiaomiPayloadC4
    (processServiceData 19 xiaomiPayloadC4 initialSensorData)
    (by decide) (by decide) (by decide) rfl
  have hrow := h.2.2.2.2.1 ⟨by decide, by decide, rfl⟩
  refine ⟨⟨by decide, by decide, by decide, by decide, by decide⟩,
    ?_, hrow.1, ?_, hrow.2.2.2⟩
  · rw [h.1]; decide
  · rw [hrow.2.1]; simp [xiaomiPayloadC4]

/-! ## Concrete fixtures for the handler-level claims -/

/-- A full advertisement holding `atcPayloadA` as its single element. -/
def atcAdvA : List ℕ := 16 :: 0x16 :: atcPayloadA

/-- An advertisement record from address `"aa"` carrying `atcAdvA`. -/
def atcAdvertA : Advertisement := ⟨"aa", -40, true, "", atcAdvA⟩

/-- Flags all off. -/
def cfgQuiet : Config := ⟨false, false⟩

/-- Debug mode (which also forces verbose, main.go line 282). -/
def cfgDebug : Config := ⟨true, true⟩

/-- The decode of `atcAdvA`. -/
def atcReadingA : SensorData :=
  { id := 7, type := 0, model := "ATC", modelID := 0,
    temperatureCelcius := 244 / 10, humidityPercent := 60,
    batteryPercent := 82 }

/-- The metric label of `atcAdvertA` with an empty name directory. -/
def atcLabelA : Label := ("aa", "", "ATC")

/-- The handler state after processing `atcAdvertA` once from the initial
state with all flags off, at time 3. -/
def atcStateA : HandlerState :=
  { discoverMap := setMap (fun _ => false) "aa" true,
    timeOutMap := setMap (fun _ => none) "aa" (some 3),
    namesMap := fun _ => "",
    advertisementCount := 1,
    advertisementSupportedCount := 1,
    deviceCount := 1,
    deviceSupportedCount := 1,
    temperatureGauge := setMap (fun _ => none) atcLabelA (some (244 / 10)),
    humidityGauge := setMap (fun _ => none) atcLabelA (some 60),
    batteryGauge := setMap (fun _ => none) atcLabelA (some 82),
    signalGauge := setMap (fun _ => none) atcLabelA (some (-40)),
    lastSeenGauge := setMap (fun _ => none) atcLabelA (some 3),
    deviceAdvCount := setMap (fun _ => 0) atcLabelA 1 }

/-- Evaluation of the parser on `atcAdvA`. -/
theorem parse_atcAdvA :
    parseAdvertisementReportData atcAdvA =
      some { reading := some atcReadingA, err := none } := by
  simp [parseAdvertisementReportData, parseLoop, atcAdvA, atcPayloadA,
    processServiceData, atcDecode, initialSensorData, atcReadingA]

/-- Evaluation of one quiet-mode handler step on `atcAdvertA`. -/
theorem handler_step_atcA :
    advScanHandlerM cfgQuiet initialHandlerState atcAdvertA 3 =
      some atcStateA := by
  simp [advScanHandlerM, parseAdvertisementReportData, parseLoop, atcAdvertA,
    atcAdvA, atcPayloadA, processServiceData, atcDecode, initialSensorData,
    initialHandlerState, cfgQuiet, atcStateA, atcLabelA, setMap, undefined]
  norm_num

/-! ## C3 -/

/-- C3 counterexample: the claim says `device_count` and
`device_supported_count` are incremented only at the first sighting of an
address, "never again on later advertisements from the same address,
regardless of debug/verbose mode".  With `flagDebug` on, the source's
condition `!discoverMap[addr] || flagDebug` is true on every advertisement,
so processing the same decodable advertisement from address `"aa"` twice
increments both counters twice (one distinct address, counters end at 2,
not 1). -/
theorem c3_counterexample_debug_reincrements :
    (processTrace cfgDebug initialHandlerState
        [(atcAdvertA, 3), (atcAdvertA, 4)]).map
      (fun s => (s.deviceCount, s.deviceSupportedCount)) = some (2, 2) := by
  simp [processTrace, advScanHandlerM, parseAdvertisementReportData,
    parseLoop, atcAdvertA, atcAdvA, atcPayloadA, processServiceData,
    atcDecode, initialSensorData, initialHandlerState, cfgDebug, setMap,
    undefined]

/-- Flattened form of the success path of `advScanHandlerM`: since the
parser always returns `(sensorData, nil)`, one handler step is this single
state update (each field carries its own enabling condition, read off the
source's branch structure). -/
theorem advScanHandlerM_success_eq (cfg : Config) (st : HandlerState)
    (a : Advertisement) (now : ℤ) (r : GoResult) (sd : SensorData)
    (hp : parseAdvertisementReportData a.data = some r)
    (hr : r.reading = some sd) :
    advScanHandlerM cfg st a now = some
      { discoverMap :=
          if st.discoverMap a.addr = false ∨ cfg.flagDebug = true then
            setMap st.discoverMap a.addr true
          else st.discoverMap,
        timeOutMap := setMap st.timeOutMap a.addr (some now),
        namesMap := st.namesMap,
        advertisementCount := st.advertisementCount + 1,
        advertisementSupportedCount :=
          if sd.model ≠ "Unknown" then st.advertisementSupportedCount + 1
          else st.advertisementSupportedCount,
        deviceCount :=
          if st.discoverMap a.addr = false ∨ cfg.flagDebug = true then
            st.deviceCount + 1
          else st.deviceCount,
        deviceSupportedCount :=
          if (st.discoverMap a.addr = false ∨ cfg.flagDebug = true) ∧
              sd.model ≠ "Unknown" ∧ sd.model ≠ "Error" ∧
              sd.model ≠ "Unsupported" then
            st.deviceSupportedCount + 1
          else st.deviceSupportedCount,
        temperatureGauge :=
          if sd.model ≠ "Unknown" ∧ sd.temperatureCelcius ≠ undefined then
            setMap st.temperatureGauge (a.addr, st.namesMap a.addr, sd.model)
              (some sd.temperatureCelcius)
          else st.temperatureGauge,
        humidityGauge :=
          if sd.model ≠ "Unknown" ∧ sd.humidityPercent ≠ undefined then
            setMap st.humidityGauge (a.addr, st.namesMap a.addr, sd.model)
              (some sd.humidityPercent)
          else st.humidityGauge,
        batteryGauge :=
          if sd.model ≠ "Unknown" ∧ sd.batteryPercent ≠ undefined then
            setMap st.batteryGauge (a.addr, st.namesMap a.addr, sd.model)
              (some sd.batteryPercent)
          else st.batteryGauge,
        signalGauge :=
          if sd.model ≠ "Unknown" then
            setMap st.signalGauge (a.addr, st.namesMap a.addr, sd.model)
              (some (a.rssi : ℚ))
          else st.signalGauge,
        lastSeenGauge :=
          if sd.model ≠ "Unknown" then
            setMap st.lastSeenGauge (a.addr, st.namesMap a.addr, sd.model)
              (some now)
          else st.lastSeenGauge,
        deviceAdvCount :=
          if sd.model ≠ "Unknown" then
            setMap st.deviceAdvCount (a.addr, st.namesMap a.addr, sd.model)
              (st.deviceAdvCount (a.addr, st.namesMap a.addr, sd.model) + 1)
          else st.deviceAdvCount } := by
  obtain ⟨herr, -⟩ := parse_success_shape _ _ hp
  rcases r with ⟨rdg, re⟩
  simp only [GoResult.err] at herr
  simp only [GoResult.reading] at hr
  subst herr
  subst hr
  by_cases hm : sd.model = "Unknown" <;>
    by_cases hd : st.discoverMap a.addr <;>
      by_cases hg : cfg.flagDebug <;>
        by_cases he : sd.model = "Error" <;>
          by_cases hu : sd.model = "Unsupported" <;>
            simp [advScanHandlerM, hp, hm, hd, hg, he, hu]

/-- C3 as amended: with `flagDebug` off, the `device_count` and
`device_supported_count` counters are incremented exactly at the first
advertisement from a distinct address — on an already-discovered address
they are unchanged (and stay unchanged forever, since `discoverMap` is
never reset) — and `device_supported_count` additionally requires the
decoded model to be displayable (not `"Unknown"`/`"Error"`/
`"Unsupported"`).  With `flagDebug` on the source re-increments both
counters on every advertisement (see the counterexample), so the claim's
"regardless of debug/verbose mode" fails; verbose mode alone does not
affect the counters. -/
theorem c3_device_counters_first_sighting_only (cfg : Config)
    (st : HandlerState) (a : Advertisement) (now : ℤ) (st1 : HandlerState)
    (r : GoResult) (sd : SensorData)
    (hdbg : cfg.flagDebug = false)
    (hp : parseAdvertisementReportData a.data = some r)
    (hr : r.reading = some sd)
    (hh : advScanHandlerM cfg st a now = some st1) :
    (st.discoverMap a.addr = true →
      st1.deviceCount = st.deviceCount ∧
      st1.deviceSupportedCount = st.deviceSupportedCount ∧
      st1.discoverMap = st.discoverMap) ∧
    (st.discoverMap a.addr = false →
      st1.deviceCount = st.deviceCount + 1 ∧
      st1.discoverMap a.addr = true ∧
      (sd.model ≠ "Unknown" ∧ sd.model ≠ "Error" ∧
          sd.model ≠ "Unsupported" →
        st1.deviceSupportedCount = st.deviceSupportedCount + 1) ∧
      (¬ (sd.model ≠ "Unknown" ∧ sd.model ≠ "Error" ∧
          sd.model ≠ "Unsupported") →
        st1.deviceSupportedCount = st.deviceSupportedCount)) ∧
    (∀ b, b ≠ a.addr → st1.discoverMap b = st.discoverMap b) := by
  rw [advScanHandlerM_success_eq cfg st a now r sd hp hr] at hh
  cases Option.some.inj hh
  refine ⟨?_, ?_, ?_⟩
  · intro hd
    refine ⟨?_, ?_, ?_⟩ <;> simp [hd, hdbg]
  · intro hd
    refine ⟨?_, ?_, ?_, ?_⟩
    · simp [hd, hdbg]
    · simp [hd, hdbg, setMap]
    · intro hmod
      simp [hd, hdbg, hmod.1, hmod.2.1, hmod.2.2]
    · intro hnot
      simp only [hd, hdbg]
      rw [if_neg]
      rintro ⟨-, hc⟩
      exact hnot hc
  · intro b hb
    by_cases hd : st.discoverMap a.addr <;> simp [hd, hdbg, setMap, hb]

/-- Witness for C3: processing `atcAdvertA` once from the initial state in
quiet mode increments both device counters from 0 to 1 and marks the
address discovered. -/
theorem c3_device_counters_first_sighting_only_witness :
    (cfgQuiet.flagDebug = false ∧
      initialHandlerState.discoverMap "aa" = false ∧
      parseAdvertisementReportData atcAdvertA.data =
        some { reading := some atcReadingA, err := none } ∧
      advScanHandlerM cfgQuiet initialHandlerState atcAdvertA 3 =
        some atcStateA) ∧
    (atcStateA.deviceCount = initialHandlerState.deviceCount + 1 ∧
      atcStateA.discoverMap "aa" = true ∧
      atcStateA.deviceSupportedCount =
        initialHandlerState.deviceSupportedCount + 1) := by
  have h := c3_device_counters_first_sighting_only cfgQuiet
    initialHandlerState atcAdvertA 3 atcStateA
    { reading := some atcReadingA, err := none } atcReadingA rfl
    parse_atcAdvA rfl handler_step_atcA
  have h2 := h.2.1 rfl
  exact ⟨⟨rfl, rfl, parse_atcAdvA, handler_step_atcA⟩,
    h2.1, h2.2.1, h2.2.2.1 ⟨by decide, by decide, by decide⟩⟩

/-! ## C7 -/

/-- C7: for every reading the handler publishes, a measurement carrying the
absent sentinel leaves its gauge completely untouched (it is never written,
in particular never set to the sentinel), while a present measurement on a
known model updates the gauge at the reading's label to exactly the
measured value. -/
theorem c7_absent_fields_not_published (cfg : Config) (st : HandlerState)
    (a : Advertisement) (now : ℤ) (st1 : HandlerState) (r : GoResult)
    (sd : SensorData)
    (hp : parseAdvertisementReportData a.data = some r)
    (hr : r.reading = some sd)
    (hh : advScanHandlerM cfg st a now = some st1) :
    (sd.temperatureCelcius = undefined →
      st1.temperatureGauge = st.temperatureGauge) ∧
    (sd.humidityPercent = undefined →
      st1.humidityGauge = st.humidityGauge) ∧
    (sd.batteryPercent = undefined →
      st1.batteryGauge = st.batteryGauge) ∧
    (sd.model ≠ "Unknown" → sd.temperatureCelcius ≠ undefined →
      st1.temperatureGauge (a.addr, st.namesMap a.addr, sd.model) =
        some sd.temperatureCelcius) ∧
    (sd.model ≠ "Unknown" → sd.humidityPercent ≠ undefined →
      st1.humidityGauge (a.addr, st.namesMap a.addr, sd.model) =
        some sd.humidityPercent) ∧
    (sd.model ≠ "Unknown" → sd.batteryPercent ≠ undefined →
      st1.batteryGauge (a.addr, st.namesMap a.addr, sd.model) =
        some sd.batteryPercent) := by
  rw [advScanHandlerM_success_eq cfg st a now r sd hp hr] at hh
  cases Option.some.inj hh
  refine ⟨?_, ?_, ?_, ?_, ?_, ?_⟩
  · intro hT; simp [hT]
  · intro hHu; simp [hHu]
  · intro hB; simp [hB]
  · intro hM hT; simp [hM, hT, setMap]
  · intro hM hHu; simp [hM, hHu, setMap]
  · intro hM hB; simp [hM, hB, setMap]

/-! ## C10 -/

/-- C10: `parseAdvertisementReportData`, whenever it does not fault, returns
a non-nil reading with a nil error (its only return is
`return sensorData, nil`); consequently the handler's decode-error branch is
dead, and every advertisement the handler processes to completion refreshes
the per-address last-seen timestamp and increments the global advertisement
counter unconditionally. -/
theorem c10_decode_never_errors (advRawData : List ℕ) (r : GoResult)
    (cfg : Config) (st : HandlerState) (a : Advertisement) (now : ℤ)
    (st1 : HandlerState)
    (hp : parseAdvertisementReportData advRawData = some r)
    (hh : advScanHandlerM cfg st a now = some st1) :
    (r.err = none ∧ r.reading.isSome = true) ∧
    st1.timeOutMap a.addr = some now ∧
    st1.advertisementCount = st.advertisementCount + 1 := by
  refine ⟨parse_success_shape _ _ hp, ?_⟩
  cases hpa : parseAdvertisementReportData a.data with
  | none =>
    unfold advScanHandlerM at hh
    rw [hpa] at hh
    exact absurd hh (by simp)
  | some r2 =>
    obtain ⟨-, hro⟩ := parse_success_shape _ _ hpa
    obtain ⟨sd2, hsd2⟩ := Option.isSome_iff_exists.mp hro
    rw [advScanHandlerM_success_eq cfg st a now r2 sd2 hpa hsd2] at hh
    cases Option.some.inj hh
    exact ⟨by simp [setMap], rfl⟩

/-- Witness for C10 at `atcAdvertA`, time 3, from the initial state. -/
theorem c10_decode_never_errors_witness :
    (parseAdvertisementReportData atcAdvA =
      some { reading := some atcReadingA, err := none } ∧
     advScanHandlerM cfgQuiet initialHandlerState atcAdvertA 3 =
      some atcStateA) ∧
    ((({ reading := some atcReadingA, err := none } : GoResult).err = none ∧
      ({ reading := some atcReadingA, err := none } :
          GoResult).reading.isSome = true) ∧
     atcStateA.timeOutMap "aa" = some 3 ∧
     atcStateA.advertisementCount =
       initialHandlerState.advertisementCount + 1) :=
  ⟨⟨parse_atcAdvA, handler_step_atcA⟩,
   c10_decode_never_errors atcAdvA
     { reading := some atcReadingA, err := none } cfgQuiet
     initialHandlerState atcAdvertA 3 atcStateA parse_atcAdvA
     handler_step_atcA⟩

/-- An advertisement record from address `"bb"` carrying `xiaomiAdvC2`
(present temperature, absent humidity and battery). -/
def xiaomiAdvertC2 : Advertisement := ⟨"bb", -40, true, "", xiaomiAdvC2⟩

/-- The decode of `xiaomiAdvC2`. -/
def xiaomiReadingC2 : SensorData :=
  { id := 9, type := 4, model := "LYWSDCGQ", modelID := 426,
    temperatureCelcius := 65281 / 10, humidityPercent := undefined,
    batteryPercent := undefined }

/-- The metric label of `xiaomiAdvertC2` with an empty name directory. -/
def xiaomiLabelC2 : Label := ("bb", "", "LYWSDCGQ")

/-- The handler state after processing `xiaomiAdvertC2` once from the
initial state with all flags off, at time 5: only the temperature gauge is
written, the humidity and battery gauges stay untouched. -/
def xiaomiStateC2 : HandlerState :=
  { discoverMap := setMap (fun _ => false) "bb" true,
    timeOutMap := setMap (fun _ => none) "bb" (some 5),
    namesMap := fun _ => "",
    advertisementCount := 1,
    advertisementSupportedCount := 1,
    deviceCount := 1,
    deviceSupportedCount := 1,
    temperatureGauge :=
      setMap (fun _ => none) xiaomiLabelC2 (some (65281 / 10)),
    humidityGauge := fun _ => none,
    batteryGauge := fun _ => none,
    signalGauge := setMap (fun _ => none) xiaomiLabelC2 (some (-40)),
    lastSeenGauge := setMap (fun _ => none) xiaomiLabelC2 (some 5),
    deviceAdvCount := setMap (fun _ => 0) xiaomiLabelC2 1 }

/-- Evaluation of the parser on `xiaomiAdvC2`. -/
theorem parse_xiaomiAdvC2 :
    parseAdvertisementReportData xiaomiAdvC2 =
      some { reading := some xiaomiReadingC2, err := none } := by
  simp [parseAdvertisementReportData, parseLoop, xiaomiAdvC2,
    xiaomiPayloadC2, processServiceData, xiaomiDecode, initialSensorData,
    xiaomiReadingC2]

/-- Evaluation of one quiet-mode handler step on `xiaomiAdvertC2`. -/
theorem handler_step_xiaomiC2 :
    advScanHandlerM cfgQuiet initialHandlerState xiaomiAdvertC2 5 =
      some xiaomiStateC2 := by
  simp [advScanHandlerM, parseAdvertisementReportData, parseLoop,
    xiaomiAdvertC2, xiaomiAdvC2, xiaomiPayloadC2, processServiceData,
    xiaomiDecode, initialSensorData, initialHandlerState, cfgQuiet,
    xiaomiStateC2, xiaomiLabelC2, setMap, undefined]
  norm_num

/-- Witness for C7 on `xiaomiAdvertC2`: the absent humidity leaves the
humidity gauge untouched while the present temperature updates its gauge. -/
theorem c7_absent_fields_not_published_witness :
    (parseAdvertisementReportData xiaomiAdvertC2.data =
      some { reading := some xiaomiReadingC2, err := none } ∧
     advScanHandlerM cfgQuiet initialHandlerState xiaomiAdvertC2 5 =
      some xiaomiStateC2 ∧
     xiaomiReadingC2.humidityPercent = undefined ∧
     xiaomiReadingC2.model ≠ "Unknown") ∧
    (xiaomiStateC2.humidityGauge = initialHandlerState.humidityGauge ∧
     xiaomiStateC2.batteryGauge = initialHandlerState.batteryGauge ∧
     xiaomiStateC2.temperatureGauge ("bb", "", "LYWSDCGQ") =
       some xiaomiReadingC2.temperatureCelcius) := by
  have h := c7_absent_fields_not_published cfgQuiet initialHandlerState
    xiaomiAdvertC2 5 xiaomiStateC2
    { reading := some xiaomiReadingC2, err := none } xiaomiReadingC2
    parse_xiaomiAdvC2 rfl handler_step_xiaomiC2
  have hT : xiaomiReadingC2.temperatureCelcius ≠ undefined := by
    have := natDiv10_ne_undefined 65281
    simpa [xiaomiReadingC2] using this
  exact ⟨⟨parse_xiaomiAdvC2, handler_step_xiaomiC2, rfl, by decide⟩,
    h.2.1 rfl, h.2.2.1 rfl, h.2.2.2.1 (by decide) hT⟩
